import Mathlib

/-!
Shallow embedding of the Coleman async downloader (src/index.py) and proofs
about its retry, backoff, idempotent-skip, translation fan-out and
per-product orchestration logic.

Modelling conventions:
* Network responses are supplied by an oracle `Nat → Resp` mapping the
  0-based attempt index of the retry loop to the observed response.
  A response of `exn` stands for any exception raised during the attempt
  (timeout or transport error in Python terms): the code catches all of
  these in the same `except` clauses and treats them as retryable.
* Each operation returns a run record: how many request attempts were made,
  the list of backoff sleeps performed (rational seconds), which file
  writes happened, and through which `return` path the Python function
  exited (its outcome tag).
* Filesystem state is supplied by oracles as well: the existing size of the
  destination file for the idempotent-skip pre-check, and whether a given
  description-file write succeeds (an unsuccessful write stands for an
  OSError raised by `aiofiles.open`/`write`, which `save_descriptions`
  does not catch).
-/

namespace Coleman

/-- CONFIG constant `MAX_RETRIES = 3` from src/index.py line 32. -/
def MAX_RETRIES : Nat := 3

/-- CONFIG constant `MAX_CONN = 10` from src/index.py line 31. -/
def MAX_CONN : Nat := 10

/-- `SLIDE_RANGE = range(1, 16)` from src/index.py line 33: slides 1..15. -/
def SLIDE_RANGE : List Nat := (List.range 15).map (· + 1)

/-! ### PageFetcher: `fetch_html` (src/index.py lines 67-95) -/

/-- One observed response of the page GET at a given attempt.
`ok` is HTTP 200 with the decoded body; `notFound` is HTTP 404;
`forbidden` is HTTP 403; `status` is any other non-200 status;
`exn` is a timeout or any other exception during the attempt. -/
inductive PageResp where
  | ok (body : String)
  | notFound
  | forbidden
  | status (code : Nat)
  | exn
deriving DecidableEq, Repr

/-- A page response is retryable (transient) when it is neither a 200 nor
a 404: the code logs 403 and other statuses and exceptions, then loops. -/
def PageResp.transient : PageResp → Bool
  | .ok _ => false
  | .notFound => false
  | _ => true

/-- The delay slept between page-fetch attempts:
`delay = 2 ** attempt + 0.5` (src/index.py line 91). -/
def fetchDelay (attempt : Nat) : ℚ := 2 ^ attempt + 1 / 2

/-- Exit path of `fetch_html`: `success body` is the `return await r.text()`
at line 75; `notFound` is the `return None` at line 78 after a 404;
`exhausted` is the final `return None` at line 95 after the loop ends. -/
inductive FetchOutcome where
  | success (body : String)
  | notFound
  | exhausted
deriving DecidableEq, Repr

/-- Observable run of `fetch_html`: number of GET attempts issued, the
backoff sleeps performed between them, and the exit path taken. -/
structure FetchRun where
  attempts : Nat
  sleeps : List ℚ
  outcome : FetchOutcome
deriving DecidableEq, Repr

/-- The `for attempt in range(retries)` loop of `fetch_html`, by remaining
fuel: `remaining` iterations are left, so the current 0-based attempt
index is `retries - remaining`.  HTTP 200 returns the body; HTTP 404
returns immediately; anything else sleeps `fetchDelay attempt` (only when
`attempt < retries - 1`, i.e. more fuel remains) and retries. -/
def fetchAux (resp : Nat → PageResp) (retries : Nat) : Nat → FetchRun
  | 0 => ⟨0, [], .exhausted⟩
  | remaining + 1 =>
    let attempt := retries - (remaining + 1)
    match resp attempt with
    | .ok body => ⟨1, [], .success body⟩
    | .notFound => ⟨1, [], .notFound⟩
    | _ =>
      if remaining = 0 then ⟨1, [], .exhausted⟩
      else
        let rest := fetchAux resp retries remaining
        ⟨1 + rest.attempts, fetchDelay attempt :: rest.sleeps, rest.outcome⟩

/-- `fetch_html(product_id, session, retries=MAX_RETRIES)`:
run the retry loop with full fuel.  Callers pass `MAX_RETRIES`, the
default of the Python parameter. -/
def fetch_html (resp : Nat → PageResp) (retries : Nat) : FetchRun :=
  fetchAux resp retries retries

/-! ### AssetDownloader: `download_image` (src/index.py lines 98-147) -/

/-- One observed response of the image GET at a given attempt.
`ok len` is HTTP 200 whose body has `len` bytes (and, when `len > 0`,
whose subsequent file write succeeds); `notFound` is HTTP 404; `status`
is any other status; `exn` is a timeout or any other exception raised
during the attempt, including a failing file write after the read: the
code catches all of those in the same `except Exception` and retries. -/
inductive ImgResp where
  | ok (len : Nat)
  | notFound
  | status (code : Nat)
  | exn
deriving DecidableEq, Repr

/-- An image response is retryable: any status other than 200 and 404,
any exception, and also a 200 whose body is empty (line 130 logs
the empty payload and falls through to the retry sleep). -/
def ImgResp.transient : ImgResp → Bool
  | .ok len => len = 0
  | .notFound => false
  | _ => true

/-- The delay slept between image-download attempts:
`1 * (attempt + 1)` seconds, linear backoff (src/index.py line 145). -/
def imgDelay (attempt : Nat) : ℚ := 1 * (attempt + 1)

/-- Exit path of `download_image`: `downloaded` is the `return` at line 128
after a successful write; `skipped` is the pre-check `return` at line 107;
`notFound` is the `return` at line 133 after a 404; `exhausted` is
falling off the loop to the error log at line 147. -/
inductive ImgOutcome where
  | downloaded
  | skipped
  | notFound
  | exhausted
deriving DecidableEq, Repr

/-- State of the retry loop of `download_image` (inside the semaphore):
attempts issued, sleeps performed, payload sizes written, exit path. -/
structure ImgLoop where
  attempts : Nat
  sleeps : List ℚ
  writes : List Nat
  outcome : ImgOutcome
deriving DecidableEq, Repr

/-- The `for attempt in range(retries)` loop of `download_image`:
HTTP 200 with non-empty body writes the payload and returns; HTTP 200
with empty body is logged and retried; HTTP 404 returns at once;
other statuses and exceptions retry after a linear backoff sleep
(only when `attempt < retries - 1`). -/
def downloadAux (resp : Nat → ImgResp) (retries : Nat) : Nat → ImgLoop
  | 0 => ⟨0, [], [], .exhausted⟩
  | remaining + 1 =>
    let attempt := retries - (remaining + 1)
    let retry : ImgLoop :=
      if remaining = 0 then ⟨1, [], [], .exhausted⟩
      else
        let rest := downloadAux resp retries remaining
        ⟨1 + rest.attempts, imgDelay attempt :: rest.sleeps, rest.writes, rest.outcome⟩
    match resp attempt with
    | .ok len => if 0 < len then ⟨1, [], [len], .downloaded⟩ else retry
    | .notFound => ⟨1, [], [], .notFound⟩
    | _ => retry

/-- The idempotent pre-check of `download_image` (lines 104-109):
skip iff the destination file exists with size strictly greater than 0.
`fileSize = none` covers both a missing file and the `OSError` branch
(which also proceeds to the download). -/
def skipCheck : Option Nat → Bool
  | some n => 0 < n
  | none => false

/-- Full observable run of `download_image`: whether the shared semaphore
was acquired, plus the loop trace.  The pre-check happens before
`async with sem`, so a skip never touches the semaphore. -/
structure ImgRun where
  semAcquired : Bool
  attempts : Nat
  sleeps : List ℚ
  writes : List Nat
  outcome : ImgOutcome
deriving DecidableEq, Repr

/-- `download_image(url, path, session, product_id, slide, sem,
retries=MAX_RETRIES)`: pre-check, then the semaphore-gated retry loop.
Callers pass `MAX_RETRIES`, the default of the Python parameter. -/
def download_image (fileSize : Option Nat) (resp : Nat → ImgResp)
    (retries : Nat) : ImgRun :=
  if skipCheck fileSize then ⟨false, 0, [], [], .skipped⟩
  else
    let loop := downloadAux resp retries retries
    ⟨true, loop.attempts, loop.sleeps, loop.writes, loop.outcome⟩

/-! ### Translator: `translate_text` (src/index.py lines 150-157) -/

/-- `translate_text(text)`: dispatch the provider call; if it raises,
catch the exception, log it, and return the original text (line 157).
The provider oracle returns `Except.error` for a raised exception. -/
def translate_text (provider : String → Except String String) (text : String) : String :=
  match provider text with
  | .ok t => t
  | .error _ => text

/-! ### `asyncio.gather` on translation tasks

`asyncio.gather(*tasks)` returns the results in argument order whatever
the completion order.  We model the event loop explicitly: `order` is the
sequence of task indices in completion order; each completion stores its
value into the slot of that index; the gather result reads the slots back
in argument order. -/

/-- Slot table after running the tasks in completion order `order`:
slot `j` holds the value of task `j` once `j` has completed. -/
def gatherSlots (f : Nat → α) (order : List Nat) : Nat → Option α :=
  order.foldl (fun s i => fun j => if j = i then some (f i) else s j)
    (fun _ => none)

/-- Result of `asyncio.gather` over `n` tasks with task bodies `f`,
run under completion order `order`: slots read back in argument order. -/
def asyncGather (f : Nat → α) (n : Nat) (order : List Nat) (dflt : α) : List α :=
  (List.range n).map (fun i => (gatherSlots f order i).getD dflt)

/-! ### `save_descriptions` (src/index.py lines 159-182) -/

/-- Which description artifacts were produced for a product:
the contents written to `<id>.jp.txt` and `<id>.vi.txt`, as line lists
(the files hold the newline-join of those lines). -/
structure DescOut where
  jp : Option (List String)
  vi : Option (List String)
deriving DecidableEq, Repr

/-- Destination of the source-language artifact `<id>.jp.txt`. -/
def jpPath (pid : String) : String := pid ++ "/" ++ pid ++ ".jp.txt"

/-- Destination of the translated artifact `<id>.vi.txt`. -/
def viPath (pid : String) : String := pid ++ "/" ++ pid ++ ".vi.txt"

/-- A filesystem event performed by the orchestration layer. -/
inductive FsEvent where
  | mkdir (dir : String)
  | write (path : String)
deriving DecidableEq, Repr

/-- Observable run of `save_descriptions`: the completed file writes, and
either the artifacts produced (`ok`) or an uncaught exception (`error`,
raised by a failing `aiofiles` open/write, which the function does not
catch). -/
structure DescRun where
  events : List FsEvent
  result : Except Unit DescOut
deriving Repr

/-- `save_descriptions(soup, out_dir, product_id)`.
`ulLines` is the DOM-collaborator view of the page: `none` when
`soup.find("ul", class_="p-item_info_indt")` finds nothing, otherwise the
stripped texts of its `li` children.  The code keeps only truthy
(non-empty) texts, returns early when none remain, writes the jp artifact,
translates every line concurrently with `asyncio.gather`, and writes the
vi artifact.  `writeOk p = false` means the write to path `p` raises. -/
def save_descriptions (writeOk : String → Bool)
    (provider : String → Except String String) (order : List Nat)
    (ulLines : Option (List String)) (pid : String) : DescRun :=
  match ulLines with
  | none => ⟨[], .ok ⟨none, none⟩⟩
  | some liTexts =>
    let jp_lines := liTexts.filter (fun s => s ≠ "")
    if jp_lines.isEmpty then ⟨[], .ok ⟨none, none⟩⟩
    else if writeOk (jpPath pid) = false then ⟨[], .error ()⟩
    else
      let vi_lines := asyncGather
        (fun i => translate_text provider (jp_lines.getD i ""))
        jp_lines.length order ""
      if writeOk (viPath pid) = false then ⟨[.write (jpPath pid)], .error ()⟩
      else ⟨[.write (jpPath pid), .write (viPath pid)],
            .ok ⟨some jp_lines, some vi_lines⟩⟩

/-! ### ProductOrchestrator: `handle_product` (src/index.py lines 184-215) -/

/-- URL normalization of the slide loop (lines 205-208): protocol-relative
and root-relative image sources are made absolute against the origin. -/
def normalizeSrc (src : String) : String :=
  if src.startsWith "//" then "https:" ++ src
  else if src.startsWith "/" then "https://ec.coleman.co.jp" ++ src
  else src

/-- Destination path `out_dir / f"{slide}.jpg"` of one slide. -/
def imgPath (pid : String) (slide : Nat) : String :=
  pid ++ "/" ++ toString slide ++ ".jpg"

/-- Everything the environment decides about one product run.
`pageResp`: page GET responses by attempt; `mkdirOk`: whether
`out_dir.mkdir(exist_ok=True)` succeeds (it raises when a regular file
already bears the product-id name); `ulLines`: the description
collaborator view; `writeOk`: which description-file writes succeed;
`provider`/`order`: translation provider and completion order;
`slideSrc`: the `src` attribute found for each slide (`none` when the
slide tag or its `img` or `src` is missing); `fileSize`: existing size of
each slide destination file; `imgResp`: image GET responses by slide and
attempt. -/
structure ProductEnv where
  pageResp : Nat → PageResp
  mkdirOk : Bool
  ulLines : Option (List String)
  writeOk : String → Bool
  provider : String → Except String String
  order : List Nat
  slideSrc : Nat → Option String
  fileSize : Nat → Option Nat
  imgResp : Nat → Nat → ImgResp

/-- The slide tasks built by the loop at lines 197-210: slides whose `src`
is missing or empty (falsy in Python) are dropped with a warning; the
rest yield `(slide, normalized url)` download tasks. -/
def slideTasks (env : ProductEnv) : List (Nat × String) :=
  SLIDE_RANGE.filterMap (fun slide =>
    match env.slideSrc slide with
    | none => none
    | some s => if s = "" then none else some (slide, normalizeSrc s))

/-- Observable run of `handle_product`: the filesystem events performed
for this product, and whether the coroutine returned normally (`ok`) or
raised an uncaught exception to its awaiter (`error`). -/
structure ProductRun where
  fsEvents : List FsEvent
  result : Except Unit Unit
deriving Repr

/-- `handle_product(pid, session, sem)`: fetch the page (returning at once,
with no filesystem effect, when `fetch_html` yields `None` — 404 or
exhaustion); create the output directory; save the descriptions; then run
every slide download task.  `mkdir` and the description writes are not
inside any `try`, so their exceptions escape the coroutine; every failure
inside `fetch_html`, `translate_text` and `download_image` is caught
inside the respective function and never escapes. -/
def handle_product (env : ProductEnv) (pid : String) : ProductRun :=
  match (fetch_html env.pageResp MAX_RETRIES).outcome with
  | .notFound => ⟨[], .ok ()⟩
  | .exhausted => ⟨[], .ok ()⟩
  | .success _ =>
    if env.mkdirOk = false then ⟨[], .error ()⟩
    else
      let descRun := save_descriptions env.writeOk env.provider env.order
        env.ulLines pid
      match descRun.result with
      | .error _ => ⟨.mkdir pid :: descRun.events, .error ()⟩
      | .ok _ =>
        let imgEvents := (slideTasks env).flatMap (fun t =>
          (download_image (env.fileSize t.1) (env.imgResp t.1)
            MAX_RETRIES).writes.map (fun _ => FsEvent.write (imgPath pid t.1)))
        ⟨.mkdir pid :: descRun.events ++ imgEvents, .ok ()⟩

/-! ### Scheduler: `main` (src/index.py lines 218-254) -/

/-- The product-level `tqdm_asyncio.gather` of `main` (line 254), with the
default `return_exceptions=False` semantics: if any product coroutine
raises, the gather re-raises instead of returning every result, aborting
the wait on the remaining pipelines; otherwise all runs are returned. -/
def main_run (jobs : List (ProductEnv × String)) : Except Unit (List ProductRun) :=
  jobs.foldr (fun job acc =>
    match (handle_product job.1 job.2).result, acc with
    | .error e, _ => .error e
    | .ok _, .error e => .error e
    | .ok _, .ok rs => .ok (handle_product job.1 job.2 :: rs)) (.ok [])

/-! ### Helper lemmas -/

/-- Under an oracle whose every response is transient, the page-fetch
retry loop at full fuel `MAX_RETRIES` makes exactly 3 attempts, sleeps
the first two backoff delays, and exits exhausted. -/
lemma fetchAux_transient3 (resp : Nat → PageResp)
    (h : ∀ a, (resp a).transient = true) :
    fetchAux resp 3 3 = ⟨3, [fetchDelay 0, fetchDelay 1], .exhausted⟩ := by
  have h0 := h 0
  have h1 := h 1
  have h2 := h 2
  cases hr0 : resp 0 <;> cases hr1 : resp 1 <;> cases hr2 : resp 2 <;>
    simp_all [fetchAux, PageResp.transient]

/-- Under an oracle whose every response is transient (including empty
200 bodies), the image retry loop at full fuel `MAX_RETRIES` makes
exactly 3 attempts, sleeps the first two linear delays, writes nothing,
and exits exhausted. -/
lemma downloadAux_transient3 (resp : Nat → ImgResp)
    (h : ∀ a, (resp a).transient = true) :
    downloadAux resp 3 3 = ⟨3, [imgDelay 0, imgDelay 1], [], .exhausted⟩ := by
  have h0 := h 0
  have h1 := h 1
  have h2 := h 2
  cases hr0 : resp 0 <;> cases hr1 : resp 1 <;> cases hr2 : resp 2 <;>
    simp_all [downloadAux, ImgResp.transient]

/-- The exponential page-fetch delay is monotone in the attempt index. -/
lemma fetchDelay_mono {a b : Nat} (h : a ≤ b) : fetchDelay a ≤ fetchDelay b := by
  unfold fetchDelay
  have : (2 : ℚ) ^ a ≤ 2 ^ b := by
    apply pow_le_pow_right₀ _ h
    norm_num
  linarith

/-- Splitting a map over `range (k + 1)` of a shifted function into its
head and a once-more-shifted tail. -/
lemma range_succ_map_shift {β : Type} (f : Nat → β) (s k : Nat) :
    (List.range (k + 1)).map (fun i => f (s + i)) =
      f s :: (List.range k).map (fun i => f (s + 1 + i)) := by
  have hfun : ((fun i => f (s + i)) ∘ Nat.succ) = fun i => f (s + 1 + i) := by
    funext i
    simp only [Function.comp_apply]
    congr 1
    omega
  rw [List.range_succ_eq_map, List.map_cons, List.map_map, Nat.add_zero, hfun]

/-- The linear image-download delay is monotone in the attempt index. -/
lemma imgDelay_mono {a b : Nat} (h : a ≤ b) : imgDelay a ≤ imgDelay b := by
  unfold imgDelay
  have : (a : ℚ) ≤ b := by exact_mod_cast h
  linarith

/-- Sleeps of the page-fetch loop form an initial run of consecutive
attempt indices starting at the current attempt `retries - remaining`. -/
lemma fetchAux_sleeps (resp : Nat → PageResp) (retries : Nat) :
    ∀ remaining, remaining ≤ retries →
      ∃ k, (fetchAux resp retries remaining).sleeps =
        (List.range k).map (fun i => fetchDelay (retries - remaining + i)) := by
  intro remaining
  induction remaining with
  | zero => exact fun _ => ⟨0, by simp [fetchAux]⟩
  | succ r ih =>
    intro hle
    rcases hr : resp (retries - (r + 1)) with b | _ | _ | c | _ <;>
      simp only [fetchAux, hr]
    · exact ⟨0, by simp⟩
    · exact ⟨0, by simp⟩
    · by_cases hrz : r = 0
      · subst hrz
        exact ⟨0, by simp⟩
      · obtain ⟨k, hk⟩ := ih (Nat.le_of_succ_le hle)
        refine ⟨k + 1, ?_⟩
        rw [if_neg hrz]
        show fetchDelay (retries - (r + 1)) :: (fetchAux resp retries r).sleeps
          = (List.range (k + 1)).map (fun i => fetchDelay (retries - (r + 1) + i))
        rw [range_succ_map_shift, hk]
        have hs : retries - (r + 1) + 1 = retries - r := by omega
        rw [hs]
    · by_cases hrz : r = 0
      · subst hrz
        exact ⟨0, by simp⟩
      · obtain ⟨k, hk⟩ := ih (Nat.le_of_succ_le hle)
        refine ⟨k + 1, ?_⟩
        rw [if_neg hrz]
        show fetchDelay (retries - (r + 1)) :: (fetchAux resp retries r).sleeps
          = (List.range (k + 1)).map (fun i => fetchDelay (retries - (r + 1) + i))
        rw [range_succ_map_shift, hk]
        have hs : retries - (r + 1) + 1 = retries - r := by omega
        rw [hs]
    · by_cases hrz : r = 0
      · subst hrz
        exact ⟨0, by simp⟩
      · obtain ⟨k, hk⟩ := ih (Nat.le_of_succ_le hle)
        refine ⟨k + 1, ?_⟩
        rw [if_neg hrz]
        show fetchDelay (retries - (r + 1)) :: (fetchAux resp retries r).sleeps
          = (List.range (k + 1)).map (fun i => fetchDelay (retries - (r + 1) + i))
        rw [range_succ_map_shift, hk]
        have hs : retries - (r + 1) + 1 = retries - r := by omega
        rw [hs]

/-- Sleeps of the image-download loop form an initial run of consecutive
attempt indices starting at the current attempt `retries - remaining`. -/
lemma downloadAux_sleeps (resp : Nat → ImgResp) (retries : Nat) :
    ∀ remaining, remaining ≤ retries →
      ∃ k, (downloadAux resp retries remaining).sleeps =
        (List.range k).map (fun i => imgDelay (retries - remaining + i)) := by
  intro remaining
  induction remaining with
  | zero => exact fun _ => ⟨0, by simp [downloadAux]⟩
  | succ r ih =>
    intro hle
    rcases hr : resp (retries - (r + 1)) with l | _ | c | _ <;>
      simp only [downloadAux, hr]
    · by_cases hl : 0 < l
      · rw [if_pos hl]
        exact ⟨0, by simp⟩
      · rw [if_neg hl]
        by_cases hrz : r = 0
        · subst hrz
          simp only [if_pos rfl]
          exact ⟨0, by simp⟩
        · obtain ⟨k, hk⟩ := ih (Nat.le_of_succ_le hle)
          refine ⟨k + 1, ?_⟩
          rw [if_neg hrz]
          show imgDelay (retries - (r + 1)) :: (downloadAux resp retries r).sleeps
            = (List.range (k + 1)).map (fun i => imgDelay (retries - (r + 1) + i))
          rw [range_succ_map_shift, hk]
          have hs : retries - (r + 1) + 1 = retries - r := by omega
          rw [hs]
    · exact ⟨0, by simp⟩
    · by_cases hrz : r = 0
      · subst hrz
        exact ⟨0, by simp⟩
      · obtain ⟨k, hk⟩ := ih (Nat.le_of_succ_le hle)
        refine ⟨k + 1, ?_⟩
        rw [if_neg hrz]
        show imgDelay (retries - (r + 1)) :: (downloadAux resp retries r).sleeps
          = (List.range (k + 1)).map (fun i => imgDelay (retries - (r + 1) + i))
        rw [range_succ_map_shift, hk]
        have hs : retries - (r + 1) + 1 = retries - r := by omega
        rw [hs]
    · by_cases hrz : r = 0
      · subst hrz
        exact ⟨0, by simp⟩
      · obtain ⟨k, hk⟩ := ih (Nat.le_of_succ_le hle)
        refine ⟨k + 1, ?_⟩
        rw [if_neg hrz]
        show imgDelay (retries - (r + 1)) :: (downloadAux resp retries r).sleeps
          = (List.range (k + 1)).map (fun i => imgDelay (retries - (r + 1) + i))
        rw [range_succ_map_shift, hk]
        have hs : retries - (r + 1) + 1 = retries - r := by omega
        rw [hs]

/-- Every payload length recorded as written by the image loop is
strictly positive: the write at line 127 is guarded by `len(data) > 0`. -/
lemma downloadAux_writes_pos (resp : Nat → ImgResp) (retries : Nat) :
    ∀ remaining, ∀ len ∈ (downloadAux resp retries remaining).writes, 0 < len := by
  intro remaining
  induction remaining with
  | zero => intro len hlen; simp [downloadAux] at hlen
  | succ r ih =>
    intro len hlen
    rcases hr : resp (retries - (r + 1)) with l | _ | c | _ <;>
      simp only [downloadAux, hr] at hlen
    · by_cases hl : 0 < l
      · rw [if_pos hl] at hlen
        simp at hlen
        exact hlen ▸ hl
      · rw [if_neg hl] at hlen
        by_cases hrz : r = 0
        · rw [if_pos hrz] at hlen
          simp at hlen
        · rw [if_neg hrz] at hlen
          exact ih len hlen
    · simp at hlen
    · by_cases hrz : r = 0
      · rw [if_pos hrz] at hlen
        simp at hlen
      · rw [if_neg hrz] at hlen
        exact ih len hlen
    · by_cases hrz : r = 0
      · rw [if_pos hrz] at hlen
        simp at hlen
      · rw [if_neg hrz] at hlen
        exact ih len hlen

/-- A shifted-index delay sequence is non-decreasing whenever the delay
function is monotone. -/
lemma pairwise_map_delay (f : Nat → ℚ) (hf : ∀ a b : Nat, a ≤ b → f a ≤ f b)
    (s k : Nat) :
    ((List.range k).map (fun i => f (s + i))).Pairwise (· ≤ ·) := by
  refine List.Pairwise.map _ ?_ (List.pairwise_lt_range k)
  intro a b hab
  exact hf (s + a) (s + b) (by omega)

/-- After the event loop has run the completions in `order`, slot `j`
holds the value of task `j` exactly when `j` has completed. -/
lemma gatherSlots_foldl {α : Type} (f : Nat → α) (order : List Nat)
    (s : Nat → Option α) (j : Nat) :
    (order.foldl (fun s i => fun j => if j = i then some (f i) else s j) s) j
      = if j ∈ order then some (f j) else s j := by
  induction order generalizing s with
  | nil => simp
  | cons a t ih =>
    rw [List.foldl_cons, ih]
    by_cases hjt : j ∈ t
    · simp [hjt]
    · by_cases hja : j = a
      · subst hja
        simp [hjt]
      · simp [hjt, hja]

/-- Whatever completion order the event loop chooses, as long as every
task index completes, `asyncio.gather` returns the task results in
argument order. -/
lemma asyncGather_eq {α : Type} (f : Nat → α) (n : Nat) (order : List Nat)
    (d : α) (h : ∀ i < n, i ∈ order) :
    asyncGather f n order d = (List.range n).map f := by
  unfold asyncGather
  apply List.map_congr_left
  intro i hi
  have hin : i < n := List.mem_range.mp hi
  unfold gatherSlots
  rw [gatherSlots_foldl]
  simp [h i hin]

/-- The gather result always has one slot per task. -/
lemma asyncGather_length {α : Type} (f : Nat → α) (n : Nat) (order : List Nat)
    (d : α) : (asyncGather f n order d).length = n := by
  simp [asyncGather]

/-- Mapping a function over positional `getD` lookups of a list is the
same as mapping it over the list. -/
lemma map_getD_range {α β : Type} (l : List α) (f : α → β) (d : α) :
    (List.range l.length).map (fun i => f (l.getD i d)) = l.map f := by
  induction l with
  | nil => simp
  | cons a t ih =>
    rw [List.length_cons, List.range_succ_eq_map, List.map_cons, List.map_map]
    simp only [List.getD_cons_zero, List.map_cons]
    refine congrArg (f a :: ·) ?_
    rw [← ih]
    apply List.map_congr_left
    intro i _
    simp [List.getD_cons_succ]

/-! ### Claim theorems -/

/-- C1: Idempotent skip — when the destination path already exists as a
file of non-zero size, `download_image` makes zero network requests,
never acquires the download semaphore, performs no file write (so the
existing file is unchanged), and exits through the skip return. -/
theorem C1_idempotent_skip (fileSize : Option Nat) (n : Nat)
    (resp : Nat → ImgResp) (retries : Nat)
    (hex : fileSize = some n) (hn : 0 < n) :
    download_image fileSize resp retries = ⟨false, 0, [], [], .skipped⟩ := by
  subst hex
  simp [download_image, skipCheck, hn]

/-- Witness for C1 at a concrete 5-byte existing file. -/
theorem C1_idempotent_skip_witness :
    download_image (some 5) (fun _ => ImgResp.exn) MAX_RETRIES =
      ⟨false, 0, [], [], .skipped⟩ :=
  C1_idempotent_skip (some 5) 5 (fun _ => ImgResp.exn) MAX_RETRIES rfl
    (by decide)

/-- C3: 404 short-circuit — a page fetch or image download whose first
response is HTTP 404 makes exactly one request attempt, performs no
backoff sleep, and returns at once through the NotFound exit. -/
theorem C3_404_short_circuit :
    (∀ (resp : Nat → PageResp) (retries : Nat), 0 < retries →
      resp 0 = .notFound →
      fetch_html resp retries = ⟨1, [], .notFound⟩) ∧
    (∀ (fz : Option Nat) (resp : Nat → ImgResp) (retries : Nat),
      skipCheck fz = false → 0 < retries → resp 0 = .notFound →
      download_image fz resp retries = ⟨true, 1, [], [], .notFound⟩) := by
  constructor
  · intro resp retries hpos h404
    cases retries with
    | zero => omega
    | succ r =>
      show fetchAux resp (r + 1) (r + 1) = _
      simp [fetchAux, Nat.sub_self, h404]
  · intro fz resp retries hsk hpos h404
    cases retries with
    | zero => omega
    | succ r =>
      simp [download_image, hsk, downloadAux, Nat.sub_self, h404]

/-- Witness for C3 with oracles that always answer 404. -/
theorem C3_404_short_circuit_witness :
    fetch_html (fun _ => PageResp.notFound) MAX_RETRIES =
      ⟨1, [], .notFound⟩ ∧
    download_image none (fun _ => ImgResp.notFound) MAX_RETRIES =
      ⟨true, 1, [], [], .notFound⟩ :=
  ⟨C3_404_short_circuit.1 (fun _ => PageResp.notFound) MAX_RETRIES
      (by decide) rfl,
   C3_404_short_circuit.2 none (fun _ => ImgResp.notFound) MAX_RETRIES rfl
      (by decide) rfl⟩

/-- C4: Retry ceiling — when every attempt yields a retryable outcome,
both the page fetch and the image download make exactly `MAX_RETRIES = 3`
request attempts, after which they exit through the exhausted-failure
path and no further attempts occur. -/
theorem C4_retry_ceiling :
    (∀ resp : Nat → PageResp, (∀ a, (resp a).transient = true) →
      (fetch_html resp MAX_RETRIES).attempts = MAX_RETRIES ∧
      (fetch_html resp MAX_RETRIES).attempts = 3 ∧
      (fetch_html resp MAX_RETRIES).outcome = .exhausted) ∧
    (∀ (fz : Option Nat) (resp : Nat → ImgResp), skipCheck fz = false →
      (∀ a, (resp a).transient = true) →
      (download_image fz resp MAX_RETRIES).attempts = MAX_RETRIES ∧
      (download_image fz resp MAX_RETRIES).attempts = 3 ∧
      (download_image fz resp MAX_RETRIES).outcome = .exhausted) := by
  constructor
  · intro resp h
    have hF : fetch_html resp MAX_RETRIES =
        ⟨3, [fetchDelay 0, fetchDelay 1], .exhausted⟩ :=
      fetchAux_transient3 resp h
    rw [hF]
    exact ⟨rfl, rfl, rfl⟩
  · intro fz resp hsk h
    have hD : downloadAux resp MAX_RETRIES MAX_RETRIES =
        ⟨3, [imgDelay 0, imgDelay 1], [], .exhausted⟩ :=
      downloadAux_transient3 resp h
    have hI : download_image fz resp MAX_RETRIES =
        ⟨true, 3, [imgDelay 0, imgDelay 1], [], .exhausted⟩ := by
      simp only [download_image, hsk, Bool.false_eq_true, if_false, hD]
    rw [hI]
    exact ⟨rfl, rfl, rfl⟩

/-- Witness for C4 with oracles that always raise. -/
theorem C4_retry_ceiling_witness :
    (fetch_html (fun _ => PageResp.exn) MAX_RETRIES).attempts = 3 ∧
    (fetch_html (fun _ => PageResp.exn) MAX_RETRIES).outcome = .exhausted ∧
    (download_image none (fun _ => ImgResp.exn) MAX_RETRIES).attempts = 3 ∧
    (download_image none (fun _ => ImgResp.exn) MAX_RETRIES).outcome =
      .exhausted := by
  obtain ⟨-, h1, h2⟩ := C4_retry_ceiling.1 (fun _ => PageResp.exn)
    (fun a => rfl)
  obtain ⟨-, h3, h4⟩ := C4_retry_ceiling.2 none (fun _ => ImgResp.exn) rfl
    (fun a => rfl)
  exact ⟨h1, h2, h3, h4⟩

/-- C5: Backoff shape and monotonicity — the page-fetch delay before the
retry that follows attempt `a` is `2 ^ a + 1 / 2` (exponential plus a
fixed offset) and is monotone in `a`; the image-download delay grows by
exactly 1 per attempt (linear) and is monotone; the sleep sequences
actually emitted by both retry loops are non-decreasing for every oracle,
and under an always-transient oracle they are the consecutive-index delay
sequences. -/
theorem C5_backoff_shape :
    (∀ a : Nat, fetchDelay a = 2 ^ a + 1 / 2) ∧
    (∀ a b : Nat, a ≤ b → fetchDelay a ≤ fetchDelay b) ∧
    (∀ a : Nat, imgDelay (a + 1) = imgDelay a + 1) ∧
    (∀ a b : Nat, a ≤ b → imgDelay a ≤ imgDelay b) ∧
    (∀ (resp : Nat → PageResp) (retries : Nat),
      (fetch_html resp retries).sleeps.Pairwise (· ≤ ·)) ∧
    (∀ (fz : Option Nat) (resp : Nat → ImgResp) (retries : Nat),
      (download_image fz resp retries).sleeps.Pairwise (· ≤ ·)) ∧
    (∀ resp : Nat → PageResp, (∀ a, (resp a).transient = true) →
      (fetch_html resp MAX_RETRIES).sleeps = [fetchDelay 0, fetchDelay 1]) ∧
    (∀ (fz : Option Nat) (resp : Nat → ImgResp), skipCheck fz = false →
      (∀ a, (resp a).transient = true) →
      (download_image fz resp MAX_RETRIES).sleeps =
        [imgDelay 0, imgDelay 1]) := by
  refine ⟨fun a => rfl, fun a b h => fetchDelay_mono h, ?_,
    fun a b h => imgDelay_mono h, ?_, ?_, ?_, ?_⟩
  · intro a
    unfold imgDelay
    push_cast
    ring
  · intro resp retries
    obtain ⟨k, hk⟩ := fetchAux_sleeps resp retries retries le_rfl
    show (fetchAux resp retries retries).sleeps.Pairwise (· ≤ ·)
    rw [hk]
    exact pairwise_map_delay fetchDelay (fun a b h => fetchDelay_mono h) _ k
  · intro fz resp retries
    by_cases hsk : skipCheck fz = true
    · simp [download_image, hsk]
    · obtain ⟨k, hk⟩ := downloadAux_sleeps resp retries retries le_rfl
      simp only [download_image, if_neg hsk]
      show (downloadAux resp retries retries).sleeps.Pairwise (· ≤ ·)
      rw [hk]
      exact pairwise_map_delay imgDelay (fun a b h => imgDelay_mono h) _ k
  · intro resp h
    have hF : fetch_html resp MAX_RETRIES =
        ⟨3, [fetchDelay 0, fetchDelay 1], .exhausted⟩ :=
      fetchAux_transient3 resp h
    rw [hF]
  · intro fz resp hsk h
    have hD : downloadAux resp MAX_RETRIES MAX_RETRIES =
        ⟨3, [imgDelay 0, imgDelay 1], [], .exhausted⟩ :=
      downloadAux_transient3 resp h
    simp only [download_image, hsk, Bool.false_eq_true, if_false, hD]

/-- Witness for C5 at concrete attempt indices and oracles. -/
theorem C5_backoff_shape_witness :
    fetchDelay 2 = 2 ^ 2 + 1 / 2 ∧
    fetchDelay 0 ≤ fetchDelay 1 ∧
    imgDelay 1 = imgDelay 0 + 1 ∧
    imgDelay 0 ≤ imgDelay 1 ∧
    (fetch_html (fun _ => PageResp.exn) MAX_RETRIES).sleeps.Pairwise
      (· ≤ ·) ∧
    (download_image none (fun _ => ImgResp.exn) MAX_RETRIES).sleeps.Pairwise
      (· ≤ ·) ∧
    (fetch_html (fun _ => PageResp.exn) MAX_RETRIES).sleeps =
      [fetchDelay 0, fetchDelay 1] ∧
    (download_image none (fun _ => ImgResp.exn) MAX_RETRIES).sleeps =
      [imgDelay 0, imgDelay 1] := by
  obtain ⟨h1, h2, h3, h4, h5, h6, h7, h8⟩ := C5_backoff_shape
  exact ⟨h1 2, h2 0 1 (by decide), h3 0, h4 0 1 (by decide),
    h5 (fun _ => PageResp.exn) MAX_RETRIES,
    h6 none (fun _ => ImgResp.exn) MAX_RETRIES,
    h7 (fun _ => PageResp.exn) (fun a => rfl),
    h8 none (fun _ => ImgResp.exn) rfl (fun a => rfl)⟩

/-- C7: Translator total degradation — `translate_text` never propagates
a provider error: when the provider succeeds it returns the provider
translation, and when the provider raises it returns the original line
unchanged. -/
theorem C7_translator_degradation (provider : String → Except String String)
    (text : String) :
    (∀ s, provider text = .ok s → translate_text provider text = s) ∧
    (∀ e, provider text = .error e → translate_text provider text = text) := by
  constructor
  · intro s hs
    simp [translate_text, hs]
  · intro e he
    simp [translate_text, he]

/-- Witness for C7 with a succeeding and a raising provider. -/
theorem C7_translator_degradation_witness :
    translate_text (fun _ => Except.ok "translated") "line" = "translated" ∧
    translate_text (fun _ => Except.error "providerError") "line" = "line" :=
  ⟨(C7_translator_degradation (fun _ => Except.ok "translated") "line").1
      "translated" rfl,
   (C7_translator_degradation (fun _ => Except.error "providerError")
      "line").2 "providerError" rfl⟩

/-- C8: No zero-length image file is ever written — every payload length
the download loop writes is strictly positive, and an oracle that always
answers HTTP 200 with an empty body drives the loop through the full
retry/backoff schedule to exhaustion with no write. -/
theorem C8_no_zero_length_write :
    (∀ (fz : Option Nat) (resp : Nat → ImgResp) (retries : Nat),
      ∀ len ∈ (download_image fz resp retries).writes, 0 < len) ∧
    (∀ (fz : Option Nat) (resp : Nat → ImgResp), skipCheck fz = false →
      (∀ a, resp a = .ok 0) →
      download_image fz resp MAX_RETRIES =
        ⟨true, 3, [imgDelay 0, imgDelay 1], [], .exhausted⟩) := by
  constructor
  · intro fz resp retries len hlen
    by_cases hsk : skipCheck fz = true
    · simp [download_image, hsk] at hlen
    · simp only [download_image, if_neg hsk] at hlen
      exact downloadAux_writes_pos resp retries retries len hlen
  · intro fz resp hsk h
    have ht : ∀ a, (resp a).transient = true := by
      intro a
      rw [h a]
      rfl
    have hD : downloadAux resp MAX_RETRIES MAX_RETRIES =
        ⟨3, [imgDelay 0, imgDelay 1], [], .exhausted⟩ :=
      downloadAux_transient3 resp ht
    simp only [download_image, hsk, Bool.false_eq_true, if_false, hD]

/-- Witness for C8: a 7-byte payload is written and is positive; an
always-empty-200 oracle exhausts the retries without writing. -/
theorem C8_no_zero_length_write_witness :
    7 ∈ (download_image none (fun _ => ImgResp.ok 7) MAX_RETRIES).writes ∧
    0 < 7 ∧
    download_image none (fun _ => ImgResp.ok 0) MAX_RETRIES =
      ⟨true, 3, [imgDelay 0, imgDelay 1], [], .exhausted⟩ :=
  ⟨by decide,
   C8_no_zero_length_write.1 none (fun _ => ImgResp.ok 7) MAX_RETRIES 7
     (by decide),
   C8_no_zero_length_write.2 none (fun _ => ImgResp.ok 0) rfl (fun a => rfl)⟩

/-- C6: Order preservation of the translation fan-out — whatever
completion order the event loop chooses for the per-line translation
tasks (any order covering every index), the vi artifact is exactly the
extraction-ordered lines mapped through the translator, and the jp
artifact is the extraction-ordered lines themselves. -/
theorem C6_order_preservation (writeOk : String → Bool)
    (provider : String → Except String String) (order : List Nat)
    (liTexts : List String) (pid : String)
    (hw : ∀ p, writeOk p = true)
    (hord : ∀ i < (liTexts.filter (fun s => s ≠ "")).length, i ∈ order)
    (hne : liTexts.filter (fun s => s ≠ "") ≠ []) :
    (save_descriptions writeOk provider order (some liTexts) pid).result =
      .ok ⟨some (liTexts.filter (fun s => s ≠ "")),
           some ((liTexts.filter (fun s => s ≠ "")).map
             (translate_text provider))⟩ := by
  have hem : (liTexts.filter (fun s => s ≠ "")).isEmpty = false := by
    cases hl : liTexts.filter (fun s => s ≠ "") with
    | nil => exact absurd hl hne
    | cons a t => rfl
  have hvi : asyncGather
      (fun i => translate_text provider
        ((liTexts.filter (fun s => s ≠ "")).getD i ""))
      (liTexts.filter (fun s => s ≠ "")).length order "" =
      (liTexts.filter (fun s => s ≠ "")).map (translate_text provider) := by
    rw [asyncGather_eq _ _ _ _ hord]
    exact map_getD_range _ _ _
  simp only [save_descriptions, hem, Bool.false_eq_true, if_false, hw,
    Bool.true_eq_false, hvi]

/-- Witness for C6: three lines translated under the scrambled completion
order `[2, 0, 1]`. -/
theorem C6_order_preservation_witness :
    (save_descriptions (fun _ => true)
        (fun s => Except.ok (String.append "t" s)) [2, 0, 1]
        (some ["A", "B", "C"]) "100004").result =
      .ok ⟨some (["A", "B", "C"].filter (fun s => s ≠ "")),
           some ((["A", "B", "C"].filter (fun s => s ≠ "")).map
             (translate_text (fun s => Except.ok (String.append "t" s))))⟩ :=
  C6_order_preservation (fun _ => true)
    (fun s => Except.ok (String.append "t" s)) [2, 0, 1] ["A", "B", "C"]
    "100004" (fun p => rfl) (by decide) (by decide)

/-- C10 counterexample: the unconditional "jp written iff vi written"
invariant fails — when the jp write succeeds and the vi write raises,
`save_descriptions` leaves the jp artifact written with no vi artifact
(its event list holds exactly the jp write) while the exception escapes. -/
theorem C10_paired_artifacts_counterexample :
    (save_descriptions (fun p => p = jpPath "100006") (fun s => Except.ok s)
        [0] (some ["x"]) "100006").events = [.write (jpPath "100006")] ∧
    (save_descriptions (fun p => p = jpPath "100006") (fun s => Except.ok s)
        [0] (some ["x"]) "100006").result = .error () :=
  ⟨rfl, rfl⟩

/-- C10 (amended): Paired description artifacts — whenever
`save_descriptions` returns without raising, either no artifact was
written at all, or both the jp and vi artifacts were written and the vi
artifact has exactly one line per jp line.  (When the vi write raises
after a successful jp write, the jp artifact is left without its vi
counterpart — see the counterexample.) -/
theorem C10_paired_artifacts (writeOk : String → Bool)
    (provider : String → Except String String) (order : List Nat)
    (ulLines : Option (List String)) (pid : String) (out : DescOut)
    (h : (save_descriptions writeOk provider order ulLines pid).result =
      .ok out) :
    (out.jp = none ∧ out.vi = none ∧
      (save_descriptions writeOk provider order ulLines pid).events = []) ∨
    (∃ j v, out.jp = some j ∧ out.vi = some v ∧ v.length = j.length ∧
      (save_descriptions writeOk provider order ulLines pid).events =
        [.write (jpPath pid), .write (viPath pid)]) := by
  cases ulLines with
  | none =>
    simp only [save_descriptions] at h ⊢
    injection h with h
    subst h
    exact Or.inl (by simp)
  | some liTexts =>
    by_cases hem : (liTexts.filter (fun s => s ≠ "")).isEmpty = true
    · simp only [save_descriptions, hem, if_true] at h ⊢
      injection h with h
      subst h
      exact Or.inl (by simp)
    · by_cases hjp : writeOk (jpPath pid) = false
      · simp only [save_descriptions, hem, Bool.false_eq_true, if_false,
          hjp, if_true] at h
        exact absurd h (by simp)
      · by_cases hvi : writeOk (viPath pid) = false
        · simp only [save_descriptions, hem, Bool.false_eq_true, if_false,
            hjp, hvi, if_true] at h
          exact absurd h (by simp)
        · simp only [save_descriptions, hem, Bool.false_eq_true, if_false,
            hjp, hvi] at h ⊢
          injection h with h
          subst h
          refine Or.inr ⟨liTexts.filter (fun s => s ≠ ""), _, rfl, rfl,
            ?_, rfl⟩
          exact asyncGather_length _ _ _ _

/-- Witness for C10 with a one-line description saved successfully. -/
theorem C10_paired_artifacts_witness :
    ((⟨some ["x"], some ["x"]⟩ : DescOut).jp = none ∧
      (⟨some ["x"], some ["x"]⟩ : DescOut).vi = none ∧
      (save_descriptions (fun _ => true) (fun s => Except.ok s) [0]
        (some ["x"]) "100005").events = []) ∨
    (∃ j v, (⟨some ["x"], some ["x"]⟩ : DescOut).jp = some j ∧
      (⟨some ["x"], some ["x"]⟩ : DescOut).vi = some v ∧
      v.length = j.length ∧
      (save_descriptions (fun _ => true) (fun s => Except.ok s) [0]
        (some ["x"]) "100005").events =
        [.write (jpPath "100005"), .write (viPath "100005")]) :=
  C10_paired_artifacts (fun _ => true) (fun s => Except.ok s) [0]
    (some ["x"]) "100005" ⟨some ["x"], some ["x"]⟩ rfl

/-- C9: No directory side effects on fetch failure — when the page fetch
ends in NotFound or retry exhaustion, `handle_product` returns normally
having performed no filesystem event: no directory creation, no file
write. -/
theorem C9_no_fs_on_fetch_failure (env : ProductEnv) (pid : String)
    (h : (fetch_html env.pageResp MAX_RETRIES).outcome = .notFound ∨
      (fetch_html env.pageResp MAX_RETRIES).outcome = .exhausted) :
    handle_product env pid = ⟨[], .ok ()⟩ := by
  rcases h with h | h <;> simp [handle_product, h]

/-- Environment whose page fetch answers 404, everything else healthy. -/
def envNotFound : ProductEnv where
  pageResp := fun _ => PageResp.notFound
  mkdirOk := true
  ulLines := some ["line"]
  writeOk := fun _ => true
  provider := fun s => Except.ok s
  order := [0]
  slideSrc := fun _ => none
  fileSize := fun _ => none
  imgResp := fun _ _ => ImgResp.exn

/-- Witness for C9 at an environment whose page fetch yields 404. -/
theorem C9_no_fs_on_fetch_failure_witness :
    handle_product envNotFound "100003" = ⟨[], .ok ()⟩ :=
  C9_no_fs_on_fetch_failure envNotFound "100003" (Or.inl rfl)

/-- Environment whose description-file writes raise (for instance the
output directory vanished between `mkdir` and the write, or the disk is
full); network, translation and directory creation all healthy. -/
def envWriteFail : ProductEnv where
  pageResp := fun _ => PageResp.ok "page"
  mkdirOk := true
  ulLines := some ["line"]
  writeOk := fun _ => false
  provider := fun s => Except.ok s
  order := [0]
  slideSrc := fun _ => none
  fileSize := fun _ => none
  imgResp := fun _ _ => ImgResp.exn

/-- Environment whose page fetch always raises (every attempt transient),
everything else healthy. -/
def envFetchFail : ProductEnv where
  pageResp := fun _ => PageResp.exn
  mkdirOk := true
  ulLines := some ["line"]
  writeOk := fun _ => true
  provider := fun s => Except.ok s
  order := [0]
  slideSrc := fun _ => none
  fileSize := fun _ => none
  imgResp := fun _ _ => ImgResp.exn

/-- Fully healthy environment. -/
def envHealthy : ProductEnv where
  pageResp := fun _ => PageResp.ok "page"
  mkdirOk := true
  ulLines := some ["line"]
  writeOk := fun _ => true
  provider := fun s => Except.ok s
  order := [0]
  slideSrc := fun _ => none
  fileSize := fun _ => none
  imgResp := fun _ _ => ImgResp.exn

/-- When every description-file write succeeds, `save_descriptions`
returns without raising. -/
lemma save_descriptions_result_ok (writeOk : String → Bool)
    (provider : String → Except String String) (order : List Nat)
    (ulLines : Option (List String)) (pid : String)
    (hw : ∀ p, writeOk p = true) :
    ∃ out, (save_descriptions writeOk provider order ulLines pid).result =
      .ok out := by
  cases ulLines with
  | none => exact ⟨⟨none, none⟩, rfl⟩
  | some liTexts =>
    simp only [save_descriptions]
    by_cases hem : (liTexts.filter (fun s => s ≠ "")).isEmpty = true
    · rw [if_pos hem]
      exact ⟨⟨none, none⟩, rfl⟩
    · rw [if_neg hem, if_neg (by simp [hw]), if_neg (by simp [hw])]
      exact ⟨_, rfl⟩

/-- When directory creation and the description-file writes succeed, the
product coroutine returns normally whatever the page, image and
translation oracles do: every network or translation failure is caught
inside `fetch_html`, `download_image` and `translate_text`. -/
lemma handle_product_result_ok (env : ProductEnv) (pid : String)
    (hmk : env.mkdirOk = true) (hw : ∀ p, env.writeOk p = true) :
    (handle_product env pid).result = .ok () := by
  unfold handle_product
  cases hf : (fetch_html env.pageResp MAX_RETRIES).outcome with
  | notFound => rfl
  | exhausted => rfl
  | success body =>
    rw [if_neg (by simp [hmk])]
    obtain ⟨out, hout⟩ := save_descriptions_result_ok env.writeOk
      env.provider env.order env.ulLines pid hw
    simp [hout]

/-- C2 counterexample: an exception arising inside one product pipeline
(a failing description-file write) escapes `handle_product` and, through
the product-level gather, aborts the run instead of letting every other
product pipeline be awaited to completion.  This contradicts the claim
that a failure in a product pipeline (page fetch, description save,
translation, or image download) never propagates beyond that product. -/
theorem C2_failure_isolation_counterexample :
    (handle_product envWriteFail "100001").result = .error () ∧
    main_run [(envWriteFail, "100001"), (envHealthy, "100002")] =
      .error () :=
  ⟨rfl, rfl⟩

/-- C2 (amended): failures in a page fetch, a translation call or an
image download never escape a product pipeline — provided directory
creation and the description-file writes succeed, every product coroutine
returns normally whatever those oracles do, and the product-level gather
then completes every product, one result per requested product.
An uncaught filesystem exception in `mkdir` or in a description-file
write, however, does escape its product pipeline (see the
counterexample). -/
theorem C2_failure_isolation_amended :
    (∀ (env : ProductEnv) (pid : String), env.mkdirOk = true →
      (∀ p, env.writeOk p = true) →
      (handle_product env pid).result = .ok ()) ∧
    (∀ jobs : List (ProductEnv × String),
      (∀ j ∈ jobs, j.1.mkdirOk = true ∧ ∀ p, j.1.writeOk p = true) →
      ∃ rs, main_run jobs = .ok rs ∧ rs.length = jobs.length) := by
  constructor
  · exact handle_product_result_ok
  · intro jobs
    induction jobs with
    | nil => exact fun _ => ⟨[], rfl, rfl⟩
    | cons j t ih =>
      intro hjobs
      obtain ⟨rs, hrs, hlen⟩ :=
        ih (fun x hx => hjobs x (List.mem_cons_of_mem _ hx))
      have hj := hjobs j (List.mem_cons_self _ _)
      have hok := handle_product_result_ok j.1 j.2 hj.1 hj.2
      refine ⟨handle_product j.1 j.2 :: rs, ?_, by simp [hlen]⟩
      show (match (handle_product j.1 j.2).result, main_run t with
        | .error e, _ => Except.error e
        | .ok _, .error e => Except.error e
        | .ok _, .ok rs => Except.ok (handle_product j.1 j.2 :: rs)) =
        Except.ok (handle_product j.1 j.2 :: rs)
      rw [hok, hrs]

/-- Witness for C2 (amended): one product whose page fetch always fails
alongside a healthy product; both coroutines return normally and the run
gathers a result for each. -/
theorem C2_failure_isolation_amended_witness :
    (handle_product envFetchFail "100001").result = .ok () ∧
    ∃ rs, main_run [(envFetchFail, "100001"), (envHealthy, "100002")] =
      .ok rs ∧ rs.length = 2 := by
  constructor
  · exact C2_failure_isolation_amended.1 envFetchFail "100001" rfl
      (fun p => rfl)
  · exact C2_failure_isolation_amended.2
      [(envFetchFail, "100001"), (envHealthy, "100002")]
      (fun j hj => by
        rcases List.mem_cons.mp hj with h | h
        · subst h
          exact ⟨rfl, fun p => rfl⟩
        · rw [List.mem_singleton] at h
          subst h
          exact ⟨rfl, fun p => rfl⟩)

end Coleman
